import Mathlib

/-!
Shallow embedding of `src/lambda/handler.py` from the aws-s3-to-ecr-backup
repository, together with proofs about the claims of its specification.

External AWS services (S3, ECR) are modelled as environments of response
functions; each Python function becomes a Lean function returning the
Python result (`Except PyErr α`, where `.error` models a raised exception)
paired with the list of service calls it issued, in order.

Note on the source: in `handler.py` the line `def cleanup_untagged_images():`
is indented four spaces (inside `upload_to_ecr`) while its body is not
indented relative to the `def`, which is a Python `IndentationError`; the
body's own indentation is that of a top-level function, and we embed it as
such.  Independently, `lambda_handler` never calls it.
-/

/-! ### SHA-256 over byte lists (models Python `hashlib.sha256`) -/

/-- Truncate to a 32-bit word, modelling 32-bit modular arithmetic. -/
def w32 (x : Nat) : Nat := x % 4294967296

/-- Right rotation of a 32-bit word by `n` bits. -/
def rotr32 (n x : Nat) : Nat := w32 ((x >>> n) ||| (x <<< (32 - n)))

/-- Bitwise complement of a 32-bit word. -/
def not32 (x : Nat) : Nat := 4294967295 ^^^ x

def sha256Ch (x y z : Nat) : Nat := (x &&& y) ^^^ (not32 x &&& z)

def sha256Maj (x y z : Nat) : Nat := (x &&& y) ^^^ (x &&& z) ^^^ (y &&& z)

def bigSigma0 (x : Nat) : Nat := rotr32 2 x ^^^ rotr32 13 x ^^^ rotr32 22 x

def bigSigma1 (x : Nat) : Nat := rotr32 6 x ^^^ rotr32 11 x ^^^ rotr32 25 x

def smallSigma0 (x : Nat) : Nat := rotr32 7 x ^^^ rotr32 18 x ^^^ (x >>> 3)

def smallSigma1 (x : Nat) : Nat := rotr32 17 x ^^^ rotr32 19 x ^^^ (x >>> 10)

/-- The 64 SHA-256 round constants. -/
def sha256K : List Nat :=
  [1116352408, 1899447441, 3049323471, 3921009573,
   961987163, 1508970993, 2453635748, 2870763221,
   3624381080, 310598401, 607225278, 1426881987,
   1925078388, 2162078206, 2614888103, 3248222580,
   3835390401, 4022224774, 264347078, 604807628,
   770255983, 1249150122, 1555081692, 1996064986,
   2554220882, 2821834349, 2952996808, 3210313671,
   3336571891, 3584528711, 113926993, 338241895,
   666307205, 773529912, 1294757372, 1396182291,
   1695183700, 1986661051, 2177026350, 2456956037,
   2730485921, 2820302411, 3259730800, 3345764771,
   3516065817, 3600352804, 4094571909, 275423344,
   430227734, 506948616, 659060556, 883997877,
   958139571, 1322822218, 1537002063, 1747873779,
   1955562222, 2024104815, 2227730452, 2361852424,
   2428436474, 2756734187, 3204031479, 3329325298]

/-- Intermediate SHA-256 state: eight 32-bit working variables. -/
structure Hash8 where
  a : Nat
  b : Nat
  c : Nat
  d : Nat
  e : Nat
  f : Nat
  g : Nat
  h : Nat
deriving Repr, DecidableEq

/-- The SHA-256 initial hash value. -/
def sha256H0 : Hash8 :=
  ⟨1779033703, 3144134277, 1013904242, 2773480762,
   1359893119, 2600822924, 528734635, 1541459225⟩

/-- One SHA-256 compression round with constant `k` and schedule word `w`. -/
def sha256Round (st : Hash8) (k : Nat) (w : Nat) : Hash8 :=
  let t1 := w32 (st.h + bigSigma1 st.e + sha256Ch st.e st.f st.g + k + w)
  let t2 := w32 (bigSigma0 st.a + sha256Maj st.a st.b st.c)
  ⟨w32 (t1 + t2), st.a, st.b, st.c, w32 (st.d + t1), st.e, st.f, st.g⟩

/-- Extend the reversed message schedule (head is the newest word) by `n` words. -/
def extendSchedule : Nat → List Nat → List Nat
  | 0, rw => rw
  | n + 1, rw =>
    let w := w32 (smallSigma1 (rw.getD 1 0) + rw.getD 6 0 +
                  smallSigma0 (rw.getD 14 0) + rw.getD 15 0)
    extendSchedule n (w :: rw)

/-- The 64-word message schedule of a 16-word block. -/
def sha256Schedule (block : List Nat) : List Nat :=
  (extendSchedule 48 block.reverse).reverse

/-- Process one 16-word block, updating the hash state. -/
def sha256Block (st : Hash8) (block : List Nat) : Hash8 :=
  let ws := sha256Schedule block
  let r := (List.zip sha256K ws).foldl (fun s kw => sha256Round s kw.1 kw.2) st
  ⟨w32 (st.a + r.a), w32 (st.b + r.b), w32 (st.c + r.c), w32 (st.d + r.d),
   w32 (st.e + r.e), w32 (st.f + r.f), w32 (st.g + r.g), w32 (st.h + r.h)⟩

/-- A byte sequence, each entry in `[0, 255]`. -/
abbrev Bytes := List Nat

/-- SHA-256 padding: append `0x80`, zeros, and the 64-bit big-endian bit length. -/
def sha256Pad (msg : Bytes) : Bytes :=
  let bitLen := 8 * msg.length
  let zeros := (119 - msg.length % 64) % 64
  msg ++ [128] ++ List.replicate zeros 0 ++
    (List.range 8).map (fun i => (bitLen >>> (8 * (7 - i))) % 256)

/-- Group a padded byte list into 16-word blocks (4 bytes per word, big-endian). -/
def sha256Words (l : Bytes) : List Nat :=
  match l with
  | b0 :: b1 :: b2 :: b3 :: rest =>
    (b0 <<< 24 ||| b1 <<< 16 ||| b2 <<< 8 ||| b3) :: sha256Words rest
  | _ => []

/-- Split a word list into chunks of 16 (padded messages always have a
multiple of 16 words; a short tail would be dropped). -/
def chunks16 : List Nat → List (List Nat)
  | w0 :: w1 :: w2 :: w3 :: w4 :: w5 :: w6 :: w7 ::
    w8 :: w9 :: w10 :: w11 :: w12 :: w13 :: w14 :: w15 :: rest =>
    [w0, w1, w2, w3, w4, w5, w6, w7, w8, w9, w10, w11, w12, w13, w14, w15] ::
      chunks16 rest
  | _ => []

/-- The SHA-256 state after absorbing a whole message. -/
def sha256Final (msg : Bytes) : Hash8 :=
  (chunks16 (sha256Words (sha256Pad msg))).foldl sha256Block sha256H0

/-- Lowercase hexadecimal digit for a value `< 16`. -/
def hexChar (n : Nat) : Char :=
  if n < 10 then Char.ofNat (48 + n) else Char.ofNat (87 + n)

/-- A 32-bit word as 8 lowercase hex characters, big-endian. -/
def toHex8 (w : Nat) : String :=
  String.mk [hexChar (w >>> 28 % 16), hexChar (w >>> 24 % 16),
             hexChar (w >>> 20 % 16), hexChar (w >>> 16 % 16),
             hexChar (w >>> 12 % 16), hexChar (w >>> 8 % 16),
             hexChar (w >>> 4 % 16), hexChar (w % 16)]

/-- Models Python `hashlib.sha256(bytes).hexdigest()`. -/
def sha256hex (msg : Bytes) : String :=
  let st := sha256Final msg
  toHex8 st.a ++ toHex8 st.b ++ toHex8 st.c ++ toHex8 st.d ++
  toHex8 st.e ++ toHex8 st.f ++ toHex8 st.g ++ toHex8 st.h

/-- Byte values of an ASCII string, as Python `str.encode()` would give. -/
def strBytes (s : String) : Bytes := s.data.map Char.toNat

set_option maxRecDepth 10000

/-! ### Model of the AWS service surface used by `handler.py`

Python exceptions are modelled by `PyErr`; a raised exception is
`Except.error`.  Each service call the handler can issue is recorded as a
`Call`, and the environments `S3Env`/`EcrEnv` give the response the
service returns for given request arguments. -/

/-- Exceptions the handler can raise or observe.  `repositoryNotFound`
models `ecr_client.exceptions.RepositoryNotFoundException`, a subclass of
`botocore.exceptions.ClientError` (see `isClientError`); `indexError` models
a Python `IndexError` from `[0]` on an empty list; `tokenError` models the
exceptions `base64.b64decode`/`bytes.decode`/tuple unpacking can raise on a
malformed authorization token. -/
inductive PyErr where
  | clientError (msg : String)
  | repositoryNotFound
  | indexError
  | tokenError
deriving Repr, DecidableEq

/-- Whether an exception is caught by `except ClientError`. -/
def PyErr.isClientError : PyErr → Bool
  | .clientError _ => true
  | .repositoryNotFound => true
  | .indexError => false
  | .tokenError => false

/-- One service call issued by the handler, with its request arguments. -/
inductive Call where
  | s3_list_objects_v2 (bucket : String) (pfx : String)
  | s3_get_object (bucket : String) (key : String)
  | ecr_describe_repositories (repositoryNames : List String)
  | ecr_create_repository (repositoryName : String)
  | ecr_get_authorization_token
  | ecr_initiate_layer_upload (repositoryName : String)
  | ecr_upload_layer_part (repositoryName : String) (uploadId : String)
      (partFirstByte : Int) (partLastByte : Int) (layerPartBlob : Bytes)
  | ecr_complete_layer_upload (repositoryName : String) (uploadId : String)
      (layerDigests : List String)
  | ecr_put_image (repositoryName : String) (imageManifest : String)
      (imageTag : String)
  | ecr_describe_images (repositoryName : String) (tagStatus : String)
  | ecr_batch_delete_image (repositoryName : String) (imageIds : List String)
deriving Repr, DecidableEq

/-- An object entry of a `list_objects_v2` response (`obj["Key"]`). -/
structure S3Object where
  Key : String
deriving Repr, DecidableEq

/-- A repository entry of a `describe_repositories`/`create_repository`
response (`...["repositoryUri"]`). -/
structure Repository where
  repositoryUri : String
deriving Repr, DecidableEq

/-- One entry of `get_authorization_token`'s `authorizationData`. -/
structure AuthData where
  authorizationToken : String
  proxyEndpoint : String
deriving Repr, DecidableEq

/-- One entry of a `describe_images` response's `imageDetails`; the
`imageDigest` key may be absent (`none`). -/
structure ImageDetail where
  imageDigest : Option String
deriving Repr, DecidableEq

/-- A `batch_delete_image` response (`imageIds` deleted, `failures`). -/
structure BatchDeleteResult where
  imageIds : List String
  failures : List String
deriving Repr, DecidableEq

/-- Responses of the S3 service.  `list_objects_v2` returning `none` models
a response dict without a `"Contents"` key (how S3 reports zero matching
objects); `some l` models `response["Contents"] = l`. -/
structure S3Env where
  list_objects_v2 : String → String → Except PyErr (Option (List S3Object))
  get_object : String → String → Except PyErr Bytes

/-- Responses of the ECR service, per request arguments. -/
structure EcrEnv where
  describe_repositories : List String → Except PyErr (List Repository)
  create_repository : String → Except PyErr Repository
  get_authorization_token : Except PyErr (List AuthData)
  initiate_layer_upload : String → Except PyErr String
  upload_layer_part : String → String → Int → Int → Bytes → Except PyErr Unit
  complete_layer_upload : String → String → List String → Except PyErr Unit
  put_image : String → String → String → Except PyErr Unit
  describe_images : String → String → Except PyErr (List ImageDetail)
  batch_delete_image : String → List String → Except PyErr BatchDeleteResult

/-! ### Decoding the authorization token

Models `base64.b64decode(...)`, then `.decode()`, then `.split(":")` with
unpacking into exactly two names (lines 57–58 of `handler.py`). -/

/-- Value of a base64 alphabet character. -/
def b64Val (c : Char) : Option Nat :=
  if 'A' ≤ c ∧ c ≤ 'Z' then some (c.toNat - 65)
  else if 'a' ≤ c ∧ c ≤ 'z' then some (c.toNat - 71)
  else if '0' ≤ c ∧ c ≤ '9' then some (c.toNat + 4)
  else if c = '+' then some 62
  else if c = '/' then some 63
  else none

/-- Regroup 6-bit values into bytes; a single leftover value is invalid. -/
def b64Bytes : List Nat → Option Bytes
  | [] => some []
  | [_] => none
  | [a, b] => some [(a <<< 2 ||| b >>> 4) % 256]
  | [a, b, c] => some [(a <<< 2 ||| b >>> 4) % 256, (b <<< 4 ||| c >>> 2) % 256]
  | a :: b :: c :: d :: rest =>
    (b64Bytes rest).map
      (fun tail => (a <<< 2 ||| b >>> 4) % 256 ::
        (b <<< 4 ||| c >>> 2) % 256 :: (c <<< 6 ||| d) % 256 :: tail)

/-- Base64-decode a string (padding `=` stripped), `none` on invalid input. -/
def base64Decode (s : String) : Option Bytes :=
  ((s.data.filter (· ≠ '=')).mapM b64Val).bind b64Bytes

/-- Decode bytes as text (ASCII fragment of `bytes.decode()`). -/
def asciiDecode (bs : Bytes) : Option String :=
  if bs.all (· < 128) then some (String.mk (bs.map Char.ofNat)) else none

/-- Split a character list at every `':'`, as Python `str.split(":")`. -/
def pySplitColon : List Char → List (List Char)
  | [] => [[]]
  | c :: rest =>
    let r := pySplitColon rest
    if c = ':' then [] :: r
    else
      match r with
      | [] => [[c]]
      | h :: t => (c :: h) :: t

/-- Models `base64.b64decode(tok).decode().split(":")` unpacked into
`(username, password)`; `none` models the exception raised when decoding
fails or the split does not give exactly two parts. -/
def decodeToken (tok : String) : Option (String × String) :=
  match (base64Decode tok).bind asciiDecode with
  | none => none
  | some s =>
    match pySplitColon s.data with
    | [u, p] => some (String.mk u, String.mk p)
    | _ => none

/-! ### The manifest string (lines 87–104 of `handler.py`)

`handler.py` builds the manifest with an f-string; we factor that literal
through a structured `ImageManifest` value whose rendering reproduces the
f-string exactly, including its whitespace. -/

/-- A blob descriptor of the manifest: `{mediaType, digest, size}`. -/
structure Descriptor where
  mediaType : String
  digest : String
  size : Nat
deriving Repr, DecidableEq

/-- The structured content of the manifest `handler.py` submits. -/
structure ImageManifest where
  schemaVersion : Nat
  mediaType : String
  config : Descriptor
  layers : List Descriptor
deriving Repr, DecidableEq

/-- The three `mediaType`/`digest`/`size` lines of a descriptor, with the
continuation indentation `ind`. -/
def descriptorJson (ind : String) (d : Descriptor) : String :=
  "\"mediaType\": \"" ++ d.mediaType ++ "\",\n" ++
  ind ++ "\"digest\": \"" ++ d.digest ++ "\",\n" ++
  ind ++ "\"size\": " ++ toString d.size

/-- One element of the `"layers"` array, at the f-string's indentation. -/
def layerBlockJson (d : Descriptor) : String :=
  "                    \x7b\n                        " ++
  descriptorJson "                        " d ++
  "\n                    \x7d"

/-- The `"layers"` array body (the source renders exactly one element). -/
def layersJson : List Descriptor → String
  | [] => ""
  | [d] => layerBlockJson d
  | d :: rest => layerBlockJson d ++ ",\n" ++ layersJson rest

/-- The manifest f-string of `handler.py` lines 87–104, whitespace intact. -/
def manifestJson (m : ImageManifest) : String :=
  "\n            \x7b\n                \"schemaVersion\": " ++
  toString m.schemaVersion ++
  ",\n                \"mediaType\": \"" ++ m.mediaType ++
  "\",\n                \"config\": \x7b\n                    " ++
  descriptorJson "                    " m.config ++
  "\n                \x7d,\n                \"layers\": [\n" ++
  layersJson m.layers ++
  "\n                ]\n            \x7d\n            "

/-! ### The embedded handler functions -/

/-- Embeds `ensure_repository_exists` (lines 22–38): describe the repository and
return its URI; on `RepositoryNotFoundException` create it; any other
exception propagates. -/
def ensure_repository_exists (ecr : EcrEnv) (ECR_REPO_NAME : String) :
    Except PyErr String × List Call :=
  match ecr.describe_repositories [ECR_REPO_NAME] with
  | .ok repos =>
    match repos with
    | [] => (.error .indexError, [.ecr_describe_repositories [ECR_REPO_NAME]])
    | r :: _ =>
      (.ok r.repositoryUri, [.ecr_describe_repositories [ECR_REPO_NAME]])
  | .error .repositoryNotFound =>
    match ecr.create_repository ECR_REPO_NAME with
    | .ok repo =>
      (.ok repo.repositoryUri,
       [.ecr_describe_repositories [ECR_REPO_NAME],
        .ecr_create_repository ECR_REPO_NAME])
    | .error e =>
      (.error e,
       [.ecr_describe_repositories [ECR_REPO_NAME],
        .ecr_create_repository ECR_REPO_NAME])
  | .error e => (.error e, [.ecr_describe_repositories [ECR_REPO_NAME]])

/-- Embeds `upload_to_ecr` (lines 41–113): hash the bytes into a 12-character tag,
authenticate, run initiate/transfer/complete, and submit the manifest.
The `except ClientError ... raise` around the upload block re-raises, so
every error propagates unchanged. -/
def upload_to_ecr (ecr : EcrEnv) (ECR_REPO_NAME : String)
    (object_key : String) (file_bytes : Bytes) :
    Except PyErr String × List Call :=
  let file_hash := (sha256hex file_bytes).take 12
  let image_tag := file_hash
  match ecr.get_authorization_token with
  | .error e => (.error e, [.ecr_get_authorization_token])
  | .ok authorizationData =>
    match authorizationData with
    | [] => (.error .indexError, [.ecr_get_authorization_token])
    | auth0 :: _ =>
      match decodeToken auth0.authorizationToken with
      | none => (.error .tokenError, [.ecr_get_authorization_token])
      | some up =>
        let username := up.1
        let password := up.2
        let registry := auth0.proxyEndpoint
        match ecr.initiate_layer_upload ECR_REPO_NAME with
        | .error e =>
          (.error e,
           [.ecr_get_authorization_token,
            .ecr_initiate_layer_upload ECR_REPO_NAME])
        | .ok upload_id =>
          let partCall := Call.ecr_upload_layer_part ECR_REPO_NAME upload_id
            0 ((file_bytes.length : Int) - 1) file_bytes
          match ecr.upload_layer_part ECR_REPO_NAME upload_id
              0 ((file_bytes.length : Int) - 1) file_bytes with
          | .error e =>
            (.error e,
             [.ecr_get_authorization_token,
              .ecr_initiate_layer_upload ECR_REPO_NAME, partCall])
          | .ok _ =>
            let layer_digest := "sha256:" ++ sha256hex file_bytes
            let completeCall := Call.ecr_complete_layer_upload ECR_REPO_NAME
              upload_id [layer_digest]
            match ecr.complete_layer_upload ECR_REPO_NAME upload_id
                [layer_digest] with
            | .error e =>
              (.error e,
               [.ecr_get_authorization_token,
                .ecr_initiate_layer_upload ECR_REPO_NAME, partCall,
                completeCall])
            | .ok _ =>
              let manifest := manifestJson
                ⟨2, "application/vnd.oci.image.manifest.v1+json",
                 ⟨"application/vnd.oci.image.config.v1+json", layer_digest,
                  file_bytes.length⟩,
                 [⟨"application/vnd.oci.image.layer.v1.tar", layer_digest,
                   file_bytes.length⟩]⟩
              let putCall := Call.ecr_put_image ECR_REPO_NAME manifest
                image_tag
              match ecr.put_image ECR_REPO_NAME manifest image_tag with
              | .error e =>
                (.error e,
                 [.ecr_get_authorization_token,
                  .ecr_initiate_layer_upload ECR_REPO_NAME, partCall,
                  completeCall, putCall])
              | .ok _ =>
                (.ok image_tag,
                 [.ecr_get_authorization_token,
                  .ecr_initiate_layer_upload ECR_REPO_NAME, partCall,
                  completeCall, putCall])

/-- Embeds `cleanup_untagged_images` (lines 115–156): list untagged images and
batch-delete them; every `ClientError` is caught and logged, so the
function returns normally (Python `None`) in those cases; with no untagged
images it returns before any delete call. -/
def cleanup_untagged_images (ecr : EcrEnv) (ECR_REPO_NAME : String) :
    Except PyErr Unit × List Call :=
  let describeCall := Call.ecr_describe_images ECR_REPO_NAME "UNTAGGED"
  match ecr.describe_images ECR_REPO_NAME "UNTAGGED" with
  | .error e =>
    if e.isClientError then (.ok (), [describeCall])
    else (.error e, [describeCall])
  | .ok imageDetails =>
    let image_ids := imageDetails
    if image_ids.isEmpty then (.ok (), [describeCall])
    else
      let batch := image_ids.filterMap (fun img => img.imageDigest)
      match ecr.batch_delete_image ECR_REPO_NAME batch with
      | .ok _ =>
        (.ok (), [describeCall, .ecr_batch_delete_image ECR_REPO_NAME batch])
      | .error e =>
        if e.isClientError then
          (.ok (), [describeCall, .ecr_batch_delete_image ECR_REPO_NAME batch])
        else
          (.error e,
           [describeCall, .ecr_batch_delete_image ECR_REPO_NAME batch])

/-- One entry of the `results` list built by `lambda_handler`
(`{"object_key": ..., "image_tag": ...}`). -/
structure BackupItem where
  object_key : String
  image_tag : String
deriving Repr, DecidableEq

/-- The dict `lambda_handler` returns: `{"status": "no_objects"}` or
`{"status": "success", "items": results}`. -/
inductive HandlerResult where
  | no_objects
  | success (items : List BackupItem)
deriving Repr, DecidableEq

/-- The per-object loop of `lambda_handler` (lines 189–211): fetch each
object, skipping it when the fetch raises `ClientError`; call
`upload_to_ecr` on the fetched bytes, any error of which propagates and
aborts the loop. -/
def processObjects (s3 : S3Env) (ecr : EcrEnv)
    (S3_BUCKET_NAME ECR_REPO_NAME : String) :
    List S3Object → Except PyErr (List BackupItem) × List Call
  | [] => (.ok [], [])
  | obj :: rest =>
    let fetchCall := Call.s3_get_object S3_BUCKET_NAME obj.Key
    match s3.get_object S3_BUCKET_NAME obj.Key with
    | .error e =>
      if e.isClientError then
        let r := processObjects s3 ecr S3_BUCKET_NAME ECR_REPO_NAME rest
        (r.1, fetchCall :: r.2)
      else (.error e, [fetchCall])
    | .ok file_bytes =>
      match upload_to_ecr ecr ECR_REPO_NAME obj.Key file_bytes with
      | (.error e, cs) => (.error e, fetchCall :: cs)
      | (.ok image_tag, cs) =>
        let r := processObjects s3 ecr S3_BUCKET_NAME ECR_REPO_NAME rest
        (r.1.map (fun items => ⟨obj.Key, image_tag⟩ :: items),
         fetchCall :: (cs ++ r.2))

/-- Embeds `lambda_handler` (lines 159–214): ensure the repository, list the
bucket, loop over the objects, and return the aggregated result.  A
missing `"Contents"` key ends the run with `no_objects`.  (The source
never calls `cleanup_untagged_images`.) -/
def lambda_handler (s3 : S3Env) (ecr : EcrEnv)
    (S3_BUCKET_NAME S3_PREFIX_FILTER ECR_REPO_NAME : String) :
    Except PyErr HandlerResult × List Call :=
  match ensure_repository_exists ecr ECR_REPO_NAME with
  | (.error e, cs) => (.error e, cs)
  | (.ok repo_uri, cs) =>
    let listCall := Call.s3_list_objects_v2 S3_BUCKET_NAME S3_PREFIX_FILTER
    match s3.list_objects_v2 S3_BUCKET_NAME S3_PREFIX_FILTER with
    | .error e => (.error e, cs ++ [listCall])
    | .ok none => (.ok .no_objects, cs ++ [listCall])
    | .ok (some contents) =>
      let r := processObjects s3 ecr S3_BUCKET_NAME ECR_REPO_NAME contents
      (r.1.map HandlerResult.success, cs ++ listCall :: r.2)

/-! ### Derived definitions used by the theorems -/

/-- Whether a call belongs to the untagged-image sweep
(`describe_images` or `batch_delete_image`). -/
def isSweep : Call → Bool
  | .ecr_describe_images _ _ => true
  | .ecr_batch_delete_image _ _ => true
  | _ => false

/-- The manifest value `upload_to_ecr` submits for content `b`. -/
def handlerManifest (b : Bytes) : ImageManifest :=
  ⟨2, "application/vnd.oci.image.manifest.v1+json",
   ⟨"application/vnd.oci.image.config.v1+json", "sha256:" ++ sha256hex b,
    b.length⟩,
   [⟨"application/vnd.oci.image.layer.v1.tar", "sha256:" ++ sha256hex b,
     b.length⟩]⟩

/-- The item the per-object loop contributes for object `o`, if any:
`none` when the fetch raises (the object is skipped), otherwise the
`{object_key, image_tag}` pair of the successful publish. -/
def loopItem (s3 : S3Env) (ecr : EcrEnv) (bkt n : String) (o : S3Object) :
    Option BackupItem :=
  match s3.get_object bkt o.Key with
  | .error _ => none
  | .ok bs =>
    match (upload_to_ecr ecr n o.Key bs).1 with
    | .error _ => none
    | .ok t => some ⟨o.Key, t⟩

/-! ### Concrete environments for witnesses -/

/-- A token whose base64 decoding is `"AWS:pw"`. -/
def tokenA : String := "QVdTOnB3"

/-- A different token, decoding to `"AWS:xy"`. -/
def tokenB : String := "QVdTOnh5"

/-- An ECR environment in which every call succeeds and the repository
already exists; there are no untagged images. -/
def happyEcr : EcrEnv where
  describe_repositories := fun _ =>
    .ok [⟨"123456789012.dkr.ecr.us-east-1.amazonaws.com/backup"⟩]
  create_repository := fun _ => .error (.clientError "unreachable")
  get_authorization_token :=
    .ok [⟨tokenA, "https://123456789012.dkr.ecr.us-east-1.amazonaws.com"⟩]
  initiate_layer_upload := fun _ => .ok "upload-1"
  upload_layer_part := fun _ _ _ _ _ => .ok ()
  complete_layer_upload := fun _ _ _ => .ok ()
  put_image := fun _ _ _ => .ok ()
  describe_images := fun _ _ => .ok []
  batch_delete_image := fun _ _ => .ok ⟨[], []⟩

/-- An S3 environment with the single object `file1.txt` holding
`b"hello"`. -/
def s3One : S3Env where
  list_objects_v2 := fun _ _ => .ok (some [⟨"file1.txt"⟩])
  get_object := fun _ k =>
    if k = "file1.txt" then .ok (strBytes "hello")
    else .error (.clientError "NoSuchKey")

/-- An S3 environment listing `a.txt`, `b.txt`, `c.txt`, where fetching
`b.txt` raises a `ClientError` and the other two succeed. -/
def s3Three : S3Env where
  list_objects_v2 := fun _ _ => .ok (some [⟨"a.txt"⟩, ⟨"b.txt"⟩, ⟨"c.txt"⟩])
  get_object := fun _ k =>
    if k = "a.txt" then .ok (strBytes "aaa")
    else if k = "c.txt" then .ok (strBytes "hello")
    else .error (.clientError "AccessDenied")

/-- An S3 environment whose listing has no `"Contents"` key. -/
def s3Empty : S3Env where
  list_objects_v2 := fun _ _ => .ok none
  get_object := fun _ _ => .error (.clientError "NoSuchKey")

/-- An ECR environment whose image-listing call fails with a
`ClientError`. -/
def failEcr : EcrEnv :=
  { happyEcr with
    describe_images := fun _ _ => .error (.clientError "AccessDenied") }

/-- An ECR environment in which the repository does not exist yet and
creation succeeds. -/
def notFoundEcr : EcrEnv :=
  { happyEcr with
    describe_repositories := fun _ => .error .repositoryNotFound,
    create_repository := fun _ =>
      .ok ⟨"123456789012.dkr.ecr.us-east-1.amazonaws.com/new"⟩ }

/-! ### Helper lemmas -/

theorem tag_hello : (sha256hex (strBytes "hello")).take 12 = "2cf24dba5fb0" := by
  rfl

theorem decode_tokenA : decodeToken tokenA = some ("AWS", "pw") := by rfl

theorem decode_tokenB : decodeToken tokenB = some ("AWS", "xy") := by rfl

theorem upload_tag_of_ok (ecr : EcrEnv) (n k : String) (b : Bytes) (t : String)
    (h : (upload_to_ecr ecr n k b).1 = .ok t) : t = (sha256hex b).take 12 := by
  unfold upload_to_ecr at h
  rcases hauth : ecr.get_authorization_token with e | ad <;> rw [hauth] at h <;>
    dsimp only at h
  · simp at h
  rcases ad with _ | ⟨a0, rest⟩ <;> dsimp only at h
  · simp at h
  rcases hdec : decodeToken a0.authorizationToken with _ | up <;> rw [hdec] at h <;>
    dsimp only at h
  · simp at h
  rcases hinit : ecr.initiate_layer_upload n with e | uid <;> rw [hinit] at h <;>
    dsimp only at h
  · simp at h
  rcases hpart : ecr.upload_layer_part n uid 0 ((b.length : Int) - 1) b with e | u <;>
    rw [hpart] at h <;> dsimp only at h
  · simp at h
  rcases hcomp : ecr.complete_layer_upload n uid ["sha256:" ++ sha256hex b] with e | u <;>
    rw [hcomp] at h <;> dsimp only at h
  · simp at h
  rcases hput : ecr.put_image n
      (manifestJson
        ⟨2, "application/vnd.oci.image.manifest.v1+json",
         ⟨"application/vnd.oci.image.config.v1+json", "sha256:" ++ sha256hex b, b.length⟩,
         [⟨"application/vnd.oci.image.layer.v1.tar", "sha256:" ++ sha256hex b, b.length⟩]⟩)
      ((sha256hex b).take 12) with e | u <;> rw [hput] at h <;> dsimp only at h
  · simp at h
  · simp at h
    exact h.symm

theorem ensure_describe_ok (ecr : EcrEnv) (n : String) (r : Repository)
    (rest : List Repository)
    (h : ecr.describe_repositories [n] = .ok (r :: rest)) :
    ensure_repository_exists ecr n =
      (.ok r.repositoryUri, [.ecr_describe_repositories [n]]) := by
  unfold ensure_repository_exists
  rw [h]

theorem ensure_notfound_create (ecr : EcrEnv) (n : String) (repo : Repository)
    (h : ecr.describe_repositories [n] = .error .repositoryNotFound)
    (hc : ecr.create_repository n = .ok repo) :
    ensure_repository_exists ecr n =
      (.ok repo.repositoryUri,
       [.ecr_describe_repositories [n], .ecr_create_repository n]) := by
  unfold ensure_repository_exists
  rw [h]
  dsimp only
  rw [hc]

theorem ensure_other_error (ecr : EcrEnv) (n : String) (e : PyErr)
    (h : ecr.describe_repositories [n] = .error e)
    (hne : e ≠ .repositoryNotFound) :
    ensure_repository_exists ecr n =
      (.error e, [.ecr_describe_repositories [n]]) := by
  unfold ensure_repository_exists
  rw [h]
  cases e <;> simp_all

theorem upload_success_eq (ecr : EcrEnv) (n k : String) (b : Bytes)
    (a0 : AuthData) (rest : List AuthData) (up : String × String) (uid : String)
    (hauth : ecr.get_authorization_token = .ok (a0 :: rest))
    (hdec : decodeToken a0.authorizationToken = some up)
    (hinit : ecr.initiate_layer_upload n = .ok uid)
    (hpart : ecr.upload_layer_part n uid 0 ((b.length : Int) - 1) b = .ok ())
    (hcomp : ecr.complete_layer_upload n uid ["sha256:" ++ sha256hex b] = .ok ())
    (hput : ecr.put_image n (manifestJson (handlerManifest b))
      ((sha256hex b).take 12) = .ok ()) :
    upload_to_ecr ecr n k b =
      (.ok ((sha256hex b).take 12),
       [.ecr_get_authorization_token,
        .ecr_initiate_layer_upload n,
        .ecr_upload_layer_part n uid 0 ((b.length : Int) - 1) b,
        .ecr_complete_layer_upload n uid ["sha256:" ++ sha256hex b],
        .ecr_put_image n (manifestJson (handlerManifest b)) ((sha256hex b).take 12)]) := by
  unfold upload_to_ecr
  unfold handlerManifest at hput ⊢
  rw [hauth]
  dsimp only
  rw [hdec]
  dsimp only
  rw [hinit]
  dsimp only
  rw [hpart]
  dsimp only
  rw [hcomp]
  dsimp only
  rw [hput]

theorem cleanup_describe_clienterror (ecr : EcrEnv) (n : String) (e : PyErr)
    (h : ecr.describe_images n "UNTAGGED" = .error e)
    (hce : e.isClientError = true) :
    cleanup_untagged_images ecr n = (.ok (), [.ecr_describe_images n "UNTAGGED"]) := by
  unfold cleanup_untagged_images
  rw [h]
  dsimp only
  rw [hce]
  rfl

theorem cleanup_empty (ecr : EcrEnv) (n : String)
    (h : ecr.describe_images n "UNTAGGED" = .ok []) :
    cleanup_untagged_images ecr n = (.ok (), [.ecr_describe_images n "UNTAGGED"]) := by
  unfold cleanup_untagged_images
  rw [h]
  rfl

theorem cleanup_batch_error (ecr : EcrEnv) (n : String) (d : ImageDetail)
    (ds : List ImageDetail) (e : PyErr)
    (h : ecr.describe_images n "UNTAGGED" = .ok (d :: ds))
    (hb : ecr.batch_delete_image n ((d :: ds).filterMap (fun img => img.imageDigest)) = .error e)
    (hce : e.isClientError = true) :
    cleanup_untagged_images ecr n =
      (.ok (),
       [.ecr_describe_images n "UNTAGGED",
        .ecr_batch_delete_image n ((d :: ds).filterMap (fun img => img.imageDigest))]) := by
  unfold cleanup_untagged_images
  rw [h]
  dsimp only
  rw [hb]
  dsimp only
  rw [hce]
  rfl

theorem cleanup_batch_ok (ecr : EcrEnv) (n : String) (d : ImageDetail)
    (ds : List ImageDetail) (r : BatchDeleteResult)
    (h : ecr.describe_images n "UNTAGGED" = .ok (d :: ds))
    (hb : ecr.batch_delete_image n ((d :: ds).filterMap (fun img => img.imageDigest)) = .ok r) :
    cleanup_untagged_images ecr n =
      (.ok (),
       [.ecr_describe_images n "UNTAGGED",
        .ecr_batch_delete_image n ((d :: ds).filterMap (fun img => img.imageDigest))]) := by
  unfold cleanup_untagged_images
  rw [h]
  dsimp only
  rw [hb]
  rfl

theorem upload_no_sweep (ecr : EcrEnv) (n k : String) (b : Bytes) :
    ∀ c ∈ (upload_to_ecr ecr n k b).2, isSweep c = false := by
  unfold upload_to_ecr
  rcases hauth : ecr.get_authorization_token with e | ad <;> (try dsimp only)
  · simp [isSweep]
  rcases ad with _ | ⟨a0, rest⟩ <;> (try dsimp only)
  · simp [isSweep]
  rcases hdec : decodeToken a0.authorizationToken with _ | up <;> (try dsimp only)
  · simp [isSweep]
  rcases hinit : ecr.initiate_layer_upload n with e | uid <;> (try dsimp only)
  · simp [isSweep]
  rcases hpart : ecr.upload_layer_part n uid 0 ((b.length : Int) - 1) b with e | u <;>
    dsimp only
  · simp [isSweep]
  rcases hcomp : ecr.complete_layer_upload n uid ["sha256:" ++ sha256hex b] with e | u <;>
    dsimp only
  · simp [isSweep]
  rcases hput : ecr.put_image n
      (manifestJson
        ⟨2, "application/vnd.oci.image.manifest.v1+json",
         ⟨"application/vnd.oci.image.config.v1+json", "sha256:" ++ sha256hex b, b.length⟩,
         [⟨"application/vnd.oci.image.layer.v1.tar", "sha256:" ++ sha256hex b, b.length⟩]⟩)
      ((sha256hex b).take 12) with e | u <;> (try dsimp only)
  · simp [isSweep]
  · simp [isSweep]

theorem ensure_trace_shape (ecr : EcrEnv) (n : String) :
    ∀ c ∈ (ensure_repository_exists ecr n).2,
      c = .ecr_describe_repositories [n] ∨ c = .ecr_create_repository n := by
  unfold ensure_repository_exists
  rcases h : ecr.describe_repositories [n] with e | repos <;> (try dsimp only)
  · cases e <;> (try dsimp only)
    · simp
    · rcases hc : ecr.create_repository n with e2 | r2 <;> (try dsimp only) <;> simp
    · simp
    · simp
  · rcases repos with _ | ⟨r, rest⟩ <;> (try dsimp only) <;> simp

theorem processObjects_no_sweep (s3 : S3Env) (ecr : EcrEnv) (bkt n : String)
    (l : List S3Object) :
    ∀ c ∈ (processObjects s3 ecr bkt n l).2, isSweep c = false := by
  induction l with
  | nil => simp [processObjects]
  | cons o rest ih =>
    unfold processObjects
    rcases hg : s3.get_object bkt o.Key with e | bs <;> (try dsimp only)
    · rcases hce : e.isClientError with _ | _ <;> (try dsimp only)
      · simp [isSweep]
      · intro c hc
        rcases List.mem_cons.mp hc with rfl | hc2
        · rfl
        · exact ih c hc2
    · rcases hu : upload_to_ecr ecr n o.Key bs with ⟨r1, cs⟩
      have hcs : ∀ c ∈ cs, isSweep c = false := by
        intro c hc
        have h2 := upload_no_sweep ecr n o.Key bs c
        rw [hu] at h2
        exact h2 hc
      rcases r1 with e | tag <;> (try dsimp only)
      · intro c hc
        rcases List.mem_cons.mp hc with rfl | hc2
        · rfl
        · exact hcs c hc2
      · intro c hc
        rcases List.mem_cons.mp hc with rfl | hc2
        · rfl
        rcases List.mem_append.mp hc2 with hc3 | hc3
        · exact hcs c hc3
        · exact ih c hc3

theorem lambda_handler_no_sweep (s3 : S3Env) (ecr : EcrEnv)
    (bkt p n : String) :
    ∀ c ∈ (lambda_handler s3 ecr bkt p n).2, isSweep c = false := by
  unfold lambda_handler
  have hens := ensure_trace_shape ecr n
  rcases hE : ensure_repository_exists ecr n with ⟨r1, cs⟩
  rw [hE] at hens
  have hcs : ∀ c ∈ cs, isSweep c = false := by
    intro c hc
    rcases hens c hc with rfl | rfl <;> rfl
  rcases r1 with e | uri <;> (try dsimp only)
  · exact hcs
  rcases hl : s3.list_objects_v2 bkt p with e | ob <;> (try dsimp only)
  · intro c hc
    rcases List.mem_append.mp hc with hc2 | hc2
    · exact hcs c hc2
    · simp at hc2; subst hc2; rfl
  rcases ob with _ | contents <;> (try dsimp only)
  · intro c hc
    rcases List.mem_append.mp hc with hc2 | hc2
    · exact hcs c hc2
    · simp at hc2; subst hc2; rfl
  · intro c hc
    rcases List.mem_append.mp hc with hc2 | hc2
    · exact hcs c hc2
    rcases List.mem_cons.mp hc2 with rfl | hc3
    · rfl
    · exact processObjects_no_sweep s3 ecr bkt n contents c hc3

theorem processObjects_ok (s3 : S3Env) (ecr : EcrEnv) (bkt n : String)
    (l : List S3Object)
    (h : ∀ o ∈ l,
      (∃ e, s3.get_object bkt o.Key = .error e ∧ e.isClientError = true) ∨
      (∃ bs, s3.get_object bkt o.Key = .ok bs ∧
        ∃ t, (upload_to_ecr ecr n o.Key bs).1 = .ok t)) :
    (processObjects s3 ecr bkt n l).1 =
      .ok (l.filterMap (loopItem s3 ecr bkt n)) := by
  induction l with
  | nil => rfl
  | cons o rest ih =>
    have ho := h o (by simp)
    have hrest := ih (fun o' ho' => h o' (by simp [ho']))
    unfold processObjects
    rcases ho with ⟨e, he, hce⟩ | ⟨bs, hbs, t, ht⟩
    · rw [he]
      dsimp only
      rw [hce]
      try dsimp only
      rw [List.filterMap_cons]
      rw [show loopItem s3 ecr bkt n o = none by unfold loopItem; rw [he]]
      exact hrest
    · rw [hbs]
      dsimp only
      rcases hu : upload_to_ecr ecr n o.Key bs with ⟨r1, cs⟩
      rw [hu] at ht
      dsimp only at ht
      subst ht
      dsimp only
      rw [List.filterMap_cons]
      rw [show loopItem s3 ecr bkt n o = some ⟨o.Key, t⟩ by
        unfold loopItem; rw [hbs]; dsimp only; rw [hu]]
      rw [hrest]
      rfl

theorem lambda_handler_no_objects (s3 : S3Env) (ecr : EcrEnv)
    (bkt p n uri : String)
    (hrepo : (ensure_repository_exists ecr n).1 = .ok uri)
    (hlist : s3.list_objects_v2 bkt p = .ok none) :
    lambda_handler s3 ecr bkt p n =
      (.ok .no_objects,
       (ensure_repository_exists ecr n).2 ++ [.s3_list_objects_v2 bkt p]) := by
  unfold lambda_handler
  rcases hE : ensure_repository_exists ecr n with ⟨r1, cs⟩
  rw [hE] at hrepo
  dsimp only at hrepo
  subst hrepo
  dsimp only
  rw [hlist]

theorem lambda_handler_some (s3 : S3Env) (ecr : EcrEnv)
    (bkt p n uri : String) (contents : List S3Object)
    (hrepo : (ensure_repository_exists ecr n).1 = .ok uri)
    (hlist : s3.list_objects_v2 bkt p = .ok (some contents)) :
    lambda_handler s3 ecr bkt p n =
      ((processObjects s3 ecr bkt n contents).1.map HandlerResult.success,
       (ensure_repository_exists ecr n).2 ++
         .s3_list_objects_v2 bkt p :: (processObjects s3 ecr bkt n contents).2) := by
  unfold lambda_handler
  rcases hE : ensure_repository_exists ecr n with ⟨r1, cs⟩
  rw [hE] at hrepo
  dsimp only at hrepo
  subst hrepo
  dsimp only
  rw [hlist]

/-! ### Claim theorems -/

/-- C1.  The specification says the untagged-image sweep is attempted
exactly once after the per-object loop of every run.  The code never
attempts it: no run of `lambda_handler`, whatever the environments and
configuration, ever issues a `describe_images` or `batch_delete_image`
call — `cleanup_untagged_images` is unreachable (and its `def` line is
mis-indented in the source, a Python `IndentationError`). -/
theorem C1_sweep_never_attempted (s3 : S3Env) (ecr : EcrEnv)
    (bkt p n : String) :
    ((lambda_handler s3 ecr bkt p n).2.all (fun c => !(isSweep c))) = true := by
  rw [List.all_eq_true]
  intro c hc
  rw [lambda_handler_no_sweep s3 ecr bkt p n c hc]
  rfl

/-- C2.  With a source listing containing exactly `file1.txt` holding
`b"hello"`, and every fetch/publish step succeeding, the run returns
status success with the single item pairing `file1.txt` with the
12-character truncated SHA-256 tag `"2cf24dba5fb0"`.  (The Python dict
keys are `object_key`/`image_tag`, embedded as the fields of
`BackupItem`.) -/
theorem C2_end_to_end (s3 : S3Env) (ecr : EcrEnv) (bkt p n uri : String)
    (a0 : AuthData) (rest : List AuthData) (up : String × String) (uid : String)
    (hrepo : (ensure_repository_exists ecr n).1 = .ok uri)
    (hlist : s3.list_objects_v2 bkt p = .ok (some [⟨"file1.txt"⟩]))
    (hget : s3.get_object bkt "file1.txt" = .ok (strBytes "hello"))
    (hauth : ecr.get_authorization_token = .ok (a0 :: rest))
    (hdec : decodeToken a0.authorizationToken = some up)
    (hinit : ecr.initiate_layer_upload n = .ok uid)
    (hpart : ecr.upload_layer_part n uid 0
      (((strBytes "hello").length : Int) - 1) (strBytes "hello") = .ok ())
    (hcomp : ecr.complete_layer_upload n uid
      ["sha256:" ++ sha256hex (strBytes "hello")] = .ok ())
    (hput : ecr.put_image n (manifestJson (handlerManifest (strBytes "hello")))
      ((sha256hex (strBytes "hello")).take 12) = .ok ()) :
    (lambda_handler s3 ecr bkt p n).1 =
      .ok (.success [⟨"file1.txt", "2cf24dba5fb0"⟩]) := by
  have hup := upload_success_eq ecr n "file1.txt" (strBytes "hello")
    a0 rest up uid hauth hdec hinit hpart hcomp hput
  have hproc := processObjects_ok s3 ecr bkt n [⟨"file1.txt"⟩] (by
    intro o ho
    simp only [List.mem_singleton] at ho
    subst ho
    exact Or.inr ⟨strBytes "hello", hget,
      ⟨(sha256hex (strBytes "hello")).take 12, by rw [hup]⟩⟩)
  rw [lambda_handler_some s3 ecr bkt p n uri [⟨"file1.txt"⟩] hrepo hlist]
  dsimp only
  rw [hproc]
  have hitem : loopItem s3 ecr bkt n ⟨"file1.txt"⟩ =
      some ⟨"file1.txt", "2cf24dba5fb0"⟩ := by
    unfold loopItem
    rw [hget]
    dsimp only
    rw [hup]
    dsimp only
    rw [tag_hello]
  rw [List.filterMap_cons, hitem]
  rfl

/-- C3.  A successful publish performs, in order, exactly the calls
authenticate, initiate, transfer, complete, submit-manifest: the transfer
sends the single byte range `[0, len(bytes)-1]` under the upload
identifier returned by initiate, the completion declares the digest
`"sha256:" + hexdigest` of the same bytes, and the returned tag is the
12-character truncation of that same SHA-256 hex digest. -/
theorem C3_layer_upload_protocol (ecr : EcrEnv) (n k : String) (b : Bytes)
    (a0 : AuthData) (rest : List AuthData) (up : String × String) (uid : String)
    (hauth : ecr.get_authorization_token = .ok (a0 :: rest))
    (hdec : decodeToken a0.authorizationToken = some up)
    (hinit : ecr.initiate_layer_upload n = .ok uid)
    (hpart : ecr.upload_layer_part n uid 0 ((b.length : Int) - 1) b = .ok ())
    (hcomp : ecr.complete_layer_upload n uid ["sha256:" ++ sha256hex b] = .ok ())
    (hput : ecr.put_image n (manifestJson (handlerManifest b))
      ((sha256hex b).take 12) = .ok ()) :
    (upload_to_ecr ecr n k b).2 =
      [.ecr_get_authorization_token,
       .ecr_initiate_layer_upload n,
       .ecr_upload_layer_part n uid 0 ((b.length : Int) - 1) b,
       .ecr_complete_layer_upload n uid ["sha256:" ++ sha256hex b],
       .ecr_put_image n (manifestJson (handlerManifest b))
         ((sha256hex b).take 12)] ∧
    (upload_to_ecr ecr n k b).1 = .ok ((sha256hex b).take 12) := by
  rw [upload_success_eq ecr n k b a0 rest up uid hauth hdec hinit hpart hcomp hput]
  exact ⟨rfl, rfl⟩

/-- C4.  The manifest submitted by a successful publish is the rendering
of a structured manifest stating schema version 2, a manifest media type,
a config descriptor and a layers array with exactly one descriptor, both
descriptors carrying the digest `"sha256:" + hexdigest` — the digest
declared at completion, which also occurs in the trace — and size
`len(bytes)`. -/
theorem C4_manifest_fields (ecr : EcrEnv) (n k : String) (b : Bytes)
    (a0 : AuthData) (rest : List AuthData) (up : String × String) (uid : String)
    (hauth : ecr.get_authorization_token = .ok (a0 :: rest))
    (hdec : decodeToken a0.authorizationToken = some up)
    (hinit : ecr.initiate_layer_upload n = .ok uid)
    (hpart : ecr.upload_layer_part n uid 0 ((b.length : Int) - 1) b = .ok ())
    (hcomp : ecr.complete_layer_upload n uid ["sha256:" ++ sha256hex b] = .ok ())
    (hput : ecr.put_image n (manifestJson (handlerManifest b))
      ((sha256hex b).take 12) = .ok ()) :
    (upload_to_ecr ecr n k b).2.getLast? =
      some (.ecr_put_image n
        (manifestJson
          ⟨2, "application/vnd.oci.image.manifest.v1+json",
           ⟨"application/vnd.oci.image.config.v1+json",
            "sha256:" ++ sha256hex b, b.length⟩,
           [⟨"application/vnd.oci.image.layer.v1.tar",
             "sha256:" ++ sha256hex b, b.length⟩]⟩)
        ((sha256hex b).take 12)) ∧
    Call.ecr_complete_layer_upload n uid ["sha256:" ++ sha256hex b] ∈
      (upload_to_ecr ecr n k b).2 := by
  rw [upload_success_eq ecr n k b a0 rest up uid hauth hdec hinit hpart hcomp hput]
  refine ⟨rfl, ?_⟩
  simp [handlerManifest]

/-- C5.  The sweep never raises: with zero untagged images it returns
normally having issued no delete call (the observable outcome `{deleted:
0, failures: []}` — the Python function itself returns `None`), and an
entirely failed listing call or batch-delete call (`ClientError`) is
swallowed, the sweep returning normally instead of propagating. -/
theorem C5_sweep_never_raises (ecr : EcrEnv) (n : String) :
    (ecr.describe_images n "UNTAGGED" = .ok [] →
      cleanup_untagged_images ecr n =
        (.ok (), [.ecr_describe_images n "UNTAGGED"])) ∧
    (∀ e, ecr.describe_images n "UNTAGGED" = .error e →
      e.isClientError = true →
      cleanup_untagged_images ecr n =
        (.ok (), [.ecr_describe_images n "UNTAGGED"])) ∧
    (∀ d ds e, ecr.describe_images n "UNTAGGED" = .ok (d :: ds) →
      ecr.batch_delete_image n
        ((d :: ds).filterMap (fun img => img.imageDigest)) = .error e →
      e.isClientError = true →
      (cleanup_untagged_images ecr n).1 = .ok ()) := by
  refine ⟨fun h => cleanup_empty ecr n h,
          fun e h hce => cleanup_describe_clienterror ecr n e h hce,
          fun d ds e h hb hce => ?_⟩
  rw [cleanup_batch_error ecr n d ds e h hb hce]

/-- C6.  Every tag a publish returns is the first 12 hexadecimal
characters of the SHA-256 digest of the content bytes, so two publishes
of byte-identical content — whatever the keys, repositories or
environments — return identical tags. -/
theorem C6_content_determined_tag :
    (∀ (ecr : EcrEnv) (n k : String) (b : Bytes) (t : String),
      (upload_to_ecr ecr n k b).1 = .ok t → t = (sha256hex b).take 12) ∧
    (∀ (ecr1 ecr2 : EcrEnv) (n1 n2 k1 k2 : String) (b : Bytes) (t1 t2 : String),
      (upload_to_ecr ecr1 n1 k1 b).1 = .ok t1 →
      (upload_to_ecr ecr2 n2 k2 b).1 = .ok t2 → t1 = t2) := by
  refine ⟨upload_tag_of_ok, fun ecr1 ecr2 n1 n2 k1 k2 b t1 t2 h1 h2 => ?_⟩
  rw [upload_tag_of_ok ecr1 n1 k1 b t1 h1, upload_tag_of_ok ecr2 n2 k2 b t2 h2]

/-- C7.  When each listed object either fetches successfully and
publishes successfully, or fails its fetch with a `ClientError`, the run
completes with status success and the report contains exactly the
successfully published objects in listing order (`loopItem` is `none`
precisely for the skipped objects). -/
theorem C7_fetch_failure_skips (s3 : S3Env) (ecr : EcrEnv)
    (bkt p n uri : String) (contents : List S3Object)
    (hrepo : (ensure_repository_exists ecr n).1 = .ok uri)
    (hlist : s3.list_objects_v2 bkt p = .ok (some contents))
    (h : ∀ o ∈ contents,
      (∃ e, s3.get_object bkt o.Key = .error e ∧ e.isClientError = true) ∨
      (∃ bs, s3.get_object bkt o.Key = .ok bs ∧
        ∃ t, (upload_to_ecr ecr n o.Key bs).1 = .ok t)) :
    (lambda_handler s3 ecr bkt p n).1 =
      .ok (.success (contents.filterMap (loopItem s3 ecr bkt n))) := by
  rw [lambda_handler_some s3 ecr bkt p n uri contents hrepo hlist]
  dsimp only
  rw [processObjects_ok s3 ecr bkt n contents h]
  rfl

/-- C8.  `ensure_repository_exists`: when the repository is described
successfully its URI is returned with no create call; on the
distinguished not-found error it is created and the new URI returned;
any other error propagates unmodified with no create call issued. -/
theorem C8_ensure_repository (ecr : EcrEnv) (n : String) :
    (∀ r rest, ecr.describe_repositories [n] = .ok (r :: rest) →
      ensure_repository_exists ecr n =
        (.ok r.repositoryUri, [.ecr_describe_repositories [n]])) ∧
    (∀ repo, ecr.describe_repositories [n] = .error .repositoryNotFound →
      ecr.create_repository n = .ok repo →
      ensure_repository_exists ecr n =
        (.ok repo.repositoryUri,
         [.ecr_describe_repositories [n], .ecr_create_repository n])) ∧
    (∀ e, ecr.describe_repositories [n] = .error e →
      e ≠ .repositoryNotFound →
      ensure_repository_exists ecr n =
        (.error e, [.ecr_describe_repositories [n]])) := by
  exact ⟨fun r rest h => ensure_describe_ok ecr n r rest h,
         fun repo h hc => ensure_notfound_create ecr n repo h hc,
         fun e h hne => ensure_other_error ecr n e h hne⟩

/-- C9.  A listing with no `"Contents"` key ends the run with status
`no_objects` as a normal return, and the whole call trace is the
repository-provisioning calls followed by the listing call — no
authentication, layer upload, manifest push or sweep activity. -/
theorem C9_no_objects (s3 : S3Env) (ecr : EcrEnv) (bkt p n uri : String)
    (hrepo : (ensure_repository_exists ecr n).1 = .ok uri)
    (hlist : s3.list_objects_v2 bkt p = .ok none) :
    (lambda_handler s3 ecr bkt p n).1 = .ok .no_objects ∧
    (lambda_handler s3 ecr bkt p n).2 =
      (ensure_repository_exists ecr n).2 ++ [.s3_list_objects_v2 bkt p] ∧
    ∀ c ∈ (ensure_repository_exists ecr n).2,
      c = .ecr_describe_repositories [n] ∨ c = .ecr_create_repository n := by
  rw [lambda_handler_no_objects s3 ecr bkt p n uri hrepo hlist]
  exact ⟨rfl, rfl, ensure_trace_shape ecr n⟩

/-- C10.  The publish outcome does not depend on the authorization
credential: for two authorization responses that both decode, the whole
result — returned tag or error, and the full call trace — is identical,
since username, password and endpoint are bound but never used. -/
theorem C10_token_noninterference (ecr : EcrEnv) (n k : String) (b : Bytes)
    (a1 a2 : AuthData)
    (h1 : (decodeToken a1.authorizationToken).isSome = true)
    (h2 : (decodeToken a2.authorizationToken).isSome = true) :
    upload_to_ecr { ecr with get_authorization_token := .ok [a1] } n k b =
      upload_to_ecr { ecr with get_authorization_token := .ok [a2] } n k b := by
  unfold upload_to_ecr
  dsimp only
  rcases hd1 : decodeToken a1.authorizationToken with _ | up1
  · rw [hd1] at h1; simp at h1
  rcases hd2 : decodeToken a2.authorizationToken with _ | up2
  · rw [hd2] at h2; simp at h2
  rfl

/-! ### Witnesses -/

theorem C2_end_to_end_witness :
    (lambda_handler s3One happyEcr "bucket" "" "repo").1 =
      .ok (.success [⟨"file1.txt", "2cf24dba5fb0"⟩]) :=
  C2_end_to_end s3One happyEcr "bucket" "" "repo"
    "123456789012.dkr.ecr.us-east-1.amazonaws.com/backup"
    ⟨tokenA, "https://123456789012.dkr.ecr.us-east-1.amazonaws.com"⟩ []
    ("AWS", "pw") "upload-1" rfl rfl rfl rfl decode_tokenA rfl rfl rfl rfl

theorem C3_layer_upload_protocol_witness :
    (upload_to_ecr happyEcr "repo" "file1.txt" (strBytes "hello")).2 =
      [.ecr_get_authorization_token,
       .ecr_initiate_layer_upload "repo",
       .ecr_upload_layer_part "repo" "upload-1" 0
         (((strBytes "hello").length : Int) - 1) (strBytes "hello"),
       .ecr_complete_layer_upload "repo" "upload-1"
         ["sha256:" ++ sha256hex (strBytes "hello")],
       .ecr_put_image "repo" (manifestJson (handlerManifest (strBytes "hello")))
         ((sha256hex (strBytes "hello")).take 12)] ∧
    (upload_to_ecr happyEcr "repo" "file1.txt" (strBytes "hello")).1 =
      .ok ((sha256hex (strBytes "hello")).take 12) :=
  C3_layer_upload_protocol happyEcr "repo" "file1.txt" (strBytes "hello")
    ⟨tokenA, "https://123456789012.dkr.ecr.us-east-1.amazonaws.com"⟩ []
    ("AWS", "pw") "upload-1" rfl decode_tokenA rfl rfl rfl rfl

theorem C4_manifest_fields_witness :
    (upload_to_ecr happyEcr "repo" "file1.txt" (strBytes "hello")).2.getLast? =
      some (.ecr_put_image "repo"
        (manifestJson
          ⟨2, "application/vnd.oci.image.manifest.v1+json",
           ⟨"application/vnd.oci.image.config.v1+json",
            "sha256:" ++ sha256hex (strBytes "hello"), (strBytes "hello").length⟩,
           [⟨"application/vnd.oci.image.layer.v1.tar",
             "sha256:" ++ sha256hex (strBytes "hello"),
             (strBytes "hello").length⟩]⟩)
        ((sha256hex (strBytes "hello")).take 12)) ∧
    Call.ecr_complete_layer_upload "repo" "upload-1"
        ["sha256:" ++ sha256hex (strBytes "hello")] ∈
      (upload_to_ecr happyEcr "repo" "file1.txt" (strBytes "hello")).2 :=
  C4_manifest_fields happyEcr "repo" "file1.txt" (strBytes "hello")
    ⟨tokenA, "https://123456789012.dkr.ecr.us-east-1.amazonaws.com"⟩ []
    ("AWS", "pw") "upload-1" rfl decode_tokenA rfl rfl rfl rfl

theorem C5_sweep_never_raises_witness :
    cleanup_untagged_images happyEcr "repo" =
      (.ok (), [.ecr_describe_images "repo" "UNTAGGED"]) ∧
    cleanup_untagged_images failEcr "repo" =
      (.ok (), [.ecr_describe_images "repo" "UNTAGGED"]) :=
  ⟨(C5_sweep_never_raises happyEcr "repo").1 rfl,
   (C5_sweep_never_raises failEcr "repo").2.1 (.clientError "AccessDenied") rfl rfl⟩

theorem C6_content_determined_tag_witness :
    "2cf24dba5fb0" = (sha256hex (strBytes "hello")).take 12 :=
  C6_content_determined_tag.1 happyEcr "repo" "file1.txt" (strBytes "hello")
    "2cf24dba5fb0" (by rfl)

theorem C7_fetch_failure_skips_witness :
    (lambda_handler s3Three happyEcr "bucket" "" "repo").1 =
      .ok (.success [⟨"a.txt", (sha256hex (strBytes "aaa")).take 12⟩,
                     ⟨"c.txt", (sha256hex (strBytes "hello")).take 12⟩]) := by
  refine (C7_fetch_failure_skips s3Three happyEcr "bucket" "" "repo"
    "123456789012.dkr.ecr.us-east-1.amazonaws.com/backup"
    [⟨"a.txt"⟩, ⟨"b.txt"⟩, ⟨"c.txt"⟩] rfl rfl ?_).trans ?_
  · intro o ho
    simp only [List.mem_cons, List.not_mem_nil, or_false] at ho
    rcases ho with rfl | rfl | rfl
    · exact Or.inr ⟨strBytes "aaa", rfl,
        ⟨(sha256hex (strBytes "aaa")).take 12, by rfl⟩⟩
    · exact Or.inl ⟨.clientError "AccessDenied", rfl, rfl⟩
    · exact Or.inr ⟨strBytes "hello", rfl,
        ⟨(sha256hex (strBytes "hello")).take 12, by rfl⟩⟩
  · rfl

theorem C8_ensure_repository_witness :
    ensure_repository_exists happyEcr "repo" =
      (.ok "123456789012.dkr.ecr.us-east-1.amazonaws.com/backup",
       [.ecr_describe_repositories ["repo"]]) ∧
    ensure_repository_exists notFoundEcr "repo" =
      (.ok "123456789012.dkr.ecr.us-east-1.amazonaws.com/new",
       [.ecr_describe_repositories ["repo"], .ecr_create_repository "repo"]) :=
  ⟨(C8_ensure_repository happyEcr "repo").1
     ⟨"123456789012.dkr.ecr.us-east-1.amazonaws.com/backup"⟩ [] rfl,
   (C8_ensure_repository notFoundEcr "repo").2.1
     ⟨"123456789012.dkr.ecr.us-east-1.amazonaws.com/new"⟩ rfl rfl⟩

theorem C9_no_objects_witness :
    (lambda_handler s3Empty happyEcr "bucket" "" "repo").1 = .ok .no_objects ∧
    (lambda_handler s3Empty happyEcr "bucket" "" "repo").2 =
      (ensure_repository_exists happyEcr "repo").2 ++
        [.s3_list_objects_v2 "bucket" ""] ∧
    ∀ c ∈ (ensure_repository_exists happyEcr "repo").2,
      c = .ecr_describe_repositories ["repo"] ∨
        c = .ecr_create_repository "repo" :=
  C9_no_objects s3Empty happyEcr "bucket" "" "repo"
    "123456789012.dkr.ecr.us-east-1.amazonaws.com/backup" rfl rfl

theorem C10_token_noninterference_witness :
    upload_to_ecr
        { happyEcr with
          get_authorization_token := .ok [⟨tokenA, "https://endpoint-one"⟩] }
        "repo" "file1.txt" (strBytes "hello") =
      upload_to_ecr
        { happyEcr with
          get_authorization_token := .ok [⟨tokenB, "https://endpoint-two"⟩] }
        "repo" "file1.txt" (strBytes "hello") :=
  C10_token_noninterference happyEcr "repo" "file1.txt" (strBytes "hello")
    ⟨tokenA, "https://endpoint-one"⟩ ⟨tokenB, "https://endpoint-two"⟩
    (by rfl) (by rfl)
